import Mathlib

/-!
Shallow embedding of the repository-analysis client of sidekick-dev-web:
the `DeepWikiClient` class (backend, reproduced in SETUP.md) and the
`AGENTS` target table of `frontend/src/config.ts`.  Network transport is
modelled as an oracle value (one constructor per outcome the Python
`requests` library can deliver to the code), and each return site of the
Python methods becomes one branch of the corresponding Lean function.
-/

/-- Whitespace test used to embed Python's `str.strip()`: space, tab,
newline and carriage return. -/
def isSpaceChar (c : Char) : Bool :=
  c == ' ' || c == '\t' || c == '\n' || c == '\r'

/-- Embedding of Python `str.strip()`: drop leading and trailing whitespace. -/
def pyStrip (s : String) : String :=
  String.mk (((s.data.dropWhile isSpaceChar).reverse.dropWhile isSpaceChar).reverse)

/-- Embedding of Python `str.startswith(p)`. -/
def pyStartsWith (s p : String) : Bool :=
  p.data.isPrefixOf s.data

/-- State of the `DeepWikiClient` instance: the `self.session_id` and
`self.is_initialized` attributes (SETUP.md lines 376-377). -/
structure SessionState where
  session_id : Option String
  is_initialized : Bool
deriving DecidableEq

/-- Attribute values set in `__init__` before `_initialize_session` runs:
`session_id = None`, `is_initialized = False` (SETUP.md lines 376-377). -/
def freshState : SessionState := SessionState.mk none false

/-- Transport outcome of the handshake `requests.post` (SETUP.md lines
401-409): a response carrying a status code, a body and the optional
`mcp-session-id` header, a `requests.exceptions.Timeout`, or another
`requests.exceptions.RequestException` carrying its message. -/
inductive InitNet where
  | ok (status : Nat) (body : String) (sessionHeader : Option String)
  | timeout
  | reqError (msg : String)

/-- Which branch of `_initialize_session` ran.  The Python method returns
`None`; the branch taken is observable through `debug_log` and through the
exception message built at each `raise` site, so it is recorded here. -/
inductive InitOutcome where
  | ok
  | remoteFailure (status : Nat) (body : String)
  | noToken
  | timeoutFailure
  | networkFailure (msg : String)
deriving DecidableEq

/-- Embedding of `DeepWikiClient._initialize_session` (SETUP.md lines
380-430).  A non-200 status raises before `self.session_id` is assigned, so
the token field keeps its previous value there; a missing or empty
`mcp-session-id` header raises after the assignment; every `except` branch
sets `self.is_initialized = False`. -/
def initializeSession (st : SessionState) (net : InitNet) : SessionState × InitOutcome :=
  match net with
  | InitNet.ok status body hdr =>
      if status ≠ 200 then
        (SessionState.mk st.session_id false, InitOutcome.remoteFailure status body)
      else
        match hdr with
        | none => (SessionState.mk none false, InitOutcome.noToken)
        | some h =>
            if h.data.isEmpty then
              (SessionState.mk (some h) false, InitOutcome.noToken)
            else
              (SessionState.mk (some h) true, InitOutcome.ok)
  | InitNet.timeout => (SessionState.mk st.session_id false, InitOutcome.timeoutFailure)
  | InitNet.reqError e => (SessionState.mk st.session_id false, InitOutcome.networkFailure e)

/-- Modelled from the spec: `ensure_ready` (§4.1) is a pure read of
`initialized`; in the code it is the `self.is_initialized` attribute read
that guards `query` (SETUP.md line 444). -/
def ensureReady (st : SessionState) : Bool := st.is_initialized

/-- Embedding of `DeepWikiClient.close` (SETUP.md lines 518-523). -/
def close (st : SessionState) : SessionState :=
  if st.is_initialized then SessionState.mk none false else st

/-- Characters of the literal host alternative `https://github.com/` inside
the repository regex of `DeepWikiClient.query` (SETUP.md line 452). -/
def httpsHostChars : List Char := "https://github.com/".data

/-- Characters of the literal host alternative `http://github.com/`. -/
def httpHostChars : List Char := "http://github.com/".data

/-- Match a literal character sequence at the start of `l`, returning the
remaining characters on success. -/
def stripLit : List Char → List Char → Option (List Char)
  | [], l => some l
  | _ :: _, [] => none
  | p :: ps, c :: cs => if p = c then stripLit ps cs else none

/-- Character class `[^/]` of the repository regex. -/
def notSlash (c : Char) : Bool := c != '/'

/-- The capture group `([^/]+/[^/]+)` of the repository regex, anchored at
the start of `l`: a nonempty maximal run of non-slash characters, a slash,
and a nonempty maximal (greedy) run of non-slash characters.  Maximal-munch
equals the backtracking regex semantics here because a shorter first run
would be followed by a non-slash character. -/
def matchTwoSegs (l : List Char) : Option (List Char) :=
  let o := l.takeWhile notSlash
  let r := l.dropWhile notSlash
  if o.isEmpty then none
  else
    match r with
    | [] => none
    | c :: rest =>
        let t := rest.takeWhile notSlash
        if t.isEmpty then none else some (o ++ c :: t)

/-- Embedding of `re.match(r"(?:https?://github\.com/)?([^/]+/[^/]+)", repository)`
(SETUP.md line 452): the greedy optional host group is tried first (with the
`s` alternative before the bare one), and when the host matched but the
capture group then fails, the engine backtracks into the host-less
alternative on the whole string. -/
def repoRegexMatch (l : List Char) : Option (List Char) :=
  match stripLit httpsHostChars l with
  | some rest =>
      match matchTwoSegs rest with
      | some g => some g
      | none => matchTwoSegs l
  | none =>
      match stripLit httpHostChars l with
      | some rest =>
          match matchTwoSegs rest with
          | some g => some g
          | none => matchTwoSegs l
      | none => matchTwoSegs l

/-- Embedding of the repository-normalization block of `DeepWikiClient.query`
(SETUP.md lines 449-459): `None` becomes `"general"`, a regex match yields
the captured group, and a non-matching string is assumed to already be in
`owner/repo` form and is passed through unchanged. -/
def normalizeRepo (repository : Option String) : String :=
  match repository with
  | none => "general"
  | some r =>
      match repoRegexMatch r.data with
      | some g => String.mk g
      | none => r

/-- Split a character list at every occurrence of `sep`. -/
def splitOnChar (sep : Char) : List Char → List (List Char)
  | [] => [[]]
  | c :: rest =>
      match splitOnChar sep rest with
      | [] => if c = sep then [[], []] else [[c]]
      | x :: xs => if c = sep then [] :: x :: xs else (c :: x) :: xs

/-- Group lines into SSE blocks: blank lines separate consecutive blocks. -/
def groupBlocks : List (List Char) → List (List (List Char))
  | [] => [[]]
  | ln :: rest =>
      match groupBlocks rest with
      | [] => if ln.isEmpty then [[], []] else [[ln]]
      | b :: bs => if ln.isEmpty then [] :: b :: bs else (ln :: b) :: bs

/-- Modelled from the spec: `parse_sse_response` (the ResponseParser, §4.3)
is called by `DeepWikiClient.query` but its definition is not among the
repository sources.  Per the spec it scans the SSE blocks of the body in
order, takes the first block whose event line denotes a message, and returns
the concatenated payload of that block's `data:` lines; when no usable
payload exists it returns a diagnostic string.  The caller recognizes
diagnostics by the four prefixes tested in SETUP.md line 495, so the
diagnostics produced here start with two of those markers; extraction of the
JSON-RPC text payload is abstracted to the raw data-line text. -/
def parse_sse_response (body : String) : String :=
  let blocks := groupBlocks (splitOnChar '\n' body.data)
  match blocks.filter (fun b => b.any (fun ln => ln == ("event: message".data))) with
  | [] => "No message event found in response"
  | b :: _ =>
      let payload := (b.filterMap (fun ln => stripLit ("data: ".data) ln)).flatten
      if payload.isEmpty then "Failed to parse SSE data payload"
      else String.mk payload

/-- Embedding of the vendor-error-marker test of `DeepWikiClient.query`
(SETUP.md line 495): `text_content.startswith` on the four known prefixes. -/
def isVendorErrorMarker (t : String) : Bool :=
  pyStartsWith t "DeepWiki error:" || pyStartsWith t "Failed to parse" ||
  pyStartsWith t "Error parsing" || pyStartsWith t "No message event"

/-- Spec-level tag (`ErrorKind`, spec §3) for a failure return site of
`DeepWikiClient.query` or of the session handshake. -/
inductive ErrorKind where
  | notInitialized
  | timeout
  | networkError
  | remoteError (status : Nat)
  | emptyResponse
  | parseError
deriving DecidableEq

/-- Spec-level `AnalysisResult`: the Python method returns a plain string at
every return site; each site is tagged with the `ErrorKind` the spec assigns
to it, keeping the exact returned string as `content`/`detail`. -/
inductive DWResult where
  | success (content : String)
  | failure (kind : ErrorKind) (detail : String)
deriving DecidableEq

/-- Transport outcome of the tool-call `requests.post` of `query` (SETUP.md
lines 477-486): a response with status and body, a
`requests.exceptions.Timeout`, or another `requests.exceptions.RequestException`. -/
inductive QueryNet where
  | ok (status : Nat) (body : String)
  | timeout
  | connError (msg : String)

/-- Observable outcome of one `query` call: the session state the method
leaves behind, the returned value, the number of `requests.post` calls
issued, the number of `parse_sse_response` calls, and the `repoName` placed
in the tool payload (absent when the early not-initialized return fires
before the payload is built). -/
structure QueryOut where
  state : SessionState
  result : DWResult
  netCalls : Nat
  parseCalls : Nat
  requestedRepo : Option String
deriving DecidableEq

/-- Embedding of `DeepWikiClient.query` (SETUP.md lines 432-516).  The
method never assigns to `self`, so every branch returns the input state
unchanged.  Branches mirror the Python control flow: the not-initialized
early return, the timeout / request-exception handlers, the non-200 branch,
the empty-body check `not tool_response.text.strip()`, and the SSE-parsing
branch whose success condition is `text_content and not
text_content.startswith(<the four markers>)`. -/
def queryT (st : SessionState) (net : QueryNet) (repository : Option String)
    (question : String) : QueryOut :=
  if st.is_initialized = false then
    QueryOut.mk st
      (DWResult.failure ErrorKind.notInitialized "MCP client not properly initialized") 0 0 none
  else
    let repoName := normalizeRepo repository
    match net with
    | QueryNet.timeout =>
        QueryOut.mk st
          (DWResult.failure ErrorKind.timeout "Request to DeepWiki timed out") 1 0 (some repoName)
    | QueryNet.connError e =>
        QueryOut.mk st
          (DWResult.failure ErrorKind.networkError ("Error connecting to DeepWiki: " ++ e))
          1 0 (some repoName)
    | QueryNet.ok status body =>
        if status = 200 then
          if (pyStrip body).data.isEmpty then
            QueryOut.mk st
              (DWResult.failure ErrorKind.emptyResponse "Empty response from DeepWiki")
              1 0 (some repoName)
          else
            let t := parse_sse_response body
            if !t.data.isEmpty && !isVendorErrorMarker t then
              QueryOut.mk st (DWResult.success t) 1 1 (some repoName)
            else
              QueryOut.mk st (DWResult.failure ErrorKind.parseError t) 1 1 (some repoName)
        else
          QueryOut.mk st
            (DWResult.failure (ErrorKind.remoteError status)
              ("DeepWiki API Error " ++ toString status ++ ": " ++ body))
            1 0 (some repoName)

/-- One entry of the `AGENTS` table of `frontend/src/config.ts`: the target
id, its canonical output filename and its active flag (UI-only fields are
omitted). -/
structure AgentSpec where
  id : String
  fileName : String
  active : Bool
deriving DecidableEq

/-- Embedding of the `AGENTS` table of `frontend/src/config.ts`. -/
def AGENTS : List AgentSpec :=
  [AgentSpec.mk "claude" "claude.md" true,
   AgentSpec.mk "cursor" "project_general.md" true,
   AgentSpec.mk "windsurf" "windsurf.md" true,
   AgentSpec.mk "gemini" "gemini.md" true,
   AgentSpec.mk "cline" "cline.md" false,
   AgentSpec.mk "bolt" "bolt.md" false,
   AgentSpec.mk "vscode" "vscode.md" false,
   AgentSpec.mk "intellij" "intellij.md" false,
   AgentSpec.mk "lovable" "lovable.md" false]

/-- Canonical filename for a target id, looked up in the `AGENTS` table. -/
def agentFileName (targetId : String) : Option String :=
  (AGENTS.find? (fun a => a.id == targetId)).map (fun a => a.fileName)

/-- States of the client reachable through the session operations:
construction (`__init__` runs `_initialize_session` against some transport
outcome), re-initialization, `query`, and `close`. -/
inductive Reachable : SessionState → Prop where
  | construct (net : InitNet) : Reachable (initializeSession freshState net).1
  | reinit (st : SessionState) (net : InitNet) :
      Reachable st → Reachable (initializeSession st net).1
  | queryStep (st : SessionState) (net : QueryNet) (repository : Option String)
      (question : String) : Reachable st → Reachable (queryT st net repository question).state
  | closeStep (st : SessionState) : Reachable st → Reachable (close st)

/-- A session state whose handshake has succeeded, used to instantiate
theorems that assume a ready client. -/
def readyState : SessionState := SessionState.mk (some "tok") true

/-- Helper: `query` returns the input session state unchanged on every
branch, mirroring the absence of any assignment to `self` in the method. -/
theorem queryT_state_eq (st : SessionState) (net : QueryNet) (repository : Option String)
    (question : String) : (queryT st net repository question).state = st := by
  unfold queryT
  repeat' split
  all_goals first
  | rfl
  | (dsimp only; split <;> rfl)

/-- Helper: on a 200 response with a non-blank body, `query` returns the
parse result, tagged success or parse-failure by the marker test. -/
theorem queryT_ok200_result (st : SessionState) (repository : Option String)
    (question : String) (body : String) (hinit : st.is_initialized = true)
    (hb : (pyStrip body).data.isEmpty = false) :
    (queryT st (QueryNet.ok 200 body) repository question).result =
      (if (!(parse_sse_response body).data.isEmpty
            && !isVendorErrorMarker (parse_sse_response body)) = true
       then DWResult.success (parse_sse_response body)
       else DWResult.failure ErrorKind.parseError (parse_sse_response body)) := by
  simp [queryT, hinit, hb]
  split <;> rfl

/-- C1: when the session is not initialized, `query` returns the
not-initialized failure immediately, issues no network request, and never
builds a tool payload, for every repository argument and question. -/
theorem query_not_ready (st : SessionState) (net : QueryNet) (repository : Option String)
    (question : String) (h : st.is_initialized = false) :
    (queryT st net repository question).result =
      DWResult.failure ErrorKind.notInitialized "MCP client not properly initialized"
    ∧ (queryT st net repository question).netCalls = 0
    ∧ (queryT st net repository question).requestedRepo = none := by
  simp [queryT, h]

/-- Witness for C1 at a concrete not-initialized state and input. -/
theorem query_not_ready_witness :
    (queryT freshState (QueryNet.ok 200 "data") none "why").result =
      DWResult.failure ErrorKind.notInitialized "MCP client not properly initialized"
    ∧ (queryT freshState (QueryNet.ok 200 "data") none "why").netCalls = 0
    ∧ (queryT freshState (QueryNet.ok 200 "data") none "why").requestedRepo = none :=
  query_not_ready freshState (QueryNet.ok 200 "data") none "why" rfl

/-- C4: every failing handshake outcome leaves the session not ready
(`ensure_ready` reads false afterwards) and reports the corresponding
failure: a request exception reports the network failure, a timeout the
timeout failure, a non-success status the remote failure with that status,
and a success response with a missing or empty `mcp-session-id` header the
distinct no-token failure. -/
theorem initialize_failure_modes (st : SessionState) :
    (∀ e, (initializeSession st (InitNet.reqError e)).2 = InitOutcome.networkFailure e
      ∧ ensureReady (initializeSession st (InitNet.reqError e)).1 = false)
  ∧ ((initializeSession st InitNet.timeout).2 = InitOutcome.timeoutFailure
      ∧ ensureReady (initializeSession st InitNet.timeout).1 = false)
  ∧ (∀ s b hdr, s ≠ 200 →
      (initializeSession st (InitNet.ok s b hdr)).2 = InitOutcome.remoteFailure s b
      ∧ ensureReady (initializeSession st (InitNet.ok s b hdr)).1 = false)
  ∧ (∀ b, (initializeSession st (InitNet.ok 200 b none)).2 = InitOutcome.noToken
      ∧ ensureReady (initializeSession st (InitNet.ok 200 b none)).1 = false)
  ∧ (∀ b, (initializeSession st (InitNet.ok 200 b (some ""))).2 = InitOutcome.noToken
      ∧ ensureReady (initializeSession st (InitNet.ok 200 b (some ""))).1 = false) := by
  refine ⟨fun e => ⟨rfl, rfl⟩, ⟨rfl, rfl⟩, fun s b hdr hs => ?_, fun b => ⟨rfl, rfl⟩,
    fun b => ⟨rfl, rfl⟩⟩
  simp [initializeSession, ensureReady, hs]

/-- Witness for C4 at a concrete non-success handshake status. -/
theorem initialize_failure_modes_witness :
    (initializeSession freshState (InitNet.ok 500 "oops" (some "tok"))).2 =
      InitOutcome.remoteFailure 500 "oops"
    ∧ ensureReady (initializeSession freshState (InitNet.ok 500 "oops" (some "tok"))).1 = false :=
  (initialize_failure_modes freshState).2.2.1 500 "oops" (some "tok") (by decide)

/-- C5: a success-status response whose body strips to the empty string
makes `query` return the empty-response failure without invoking the
response parser. -/
theorem query_empty_body (st : SessionState) (repository : Option String) (question : String)
    (body : String) (hinit : st.is_initialized = true)
    (hbody : (pyStrip body).data.isEmpty = true) :
    (queryT st (QueryNet.ok 200 body) repository question).result =
      DWResult.failure ErrorKind.emptyResponse "Empty response from DeepWiki"
    ∧ (queryT st (QueryNet.ok 200 body) repository question).parseCalls = 0 := by
  simp [queryT, hinit, hbody]

/-- Witness for C5 at a whitespace-only body. -/
theorem query_empty_body_witness :
    (queryT readyState (QueryNet.ok 200 "  \n ") none "why").result =
      DWResult.failure ErrorKind.emptyResponse "Empty response from DeepWiki"
    ∧ (queryT readyState (QueryNet.ok 200 "  \n ") none "why").parseCalls = 0 :=
  query_empty_body readyState none "why" "  \n " rfl (by decide)

/-- C6: with a ready session, a non-success status yields the remote-error
failure carrying that status, with a detail that is the raw response body
behind a constant prefix (so the detail exceeds the body only by the prefix
length); a transport timeout yields the timeout failure; any other
transport failure yields the network-error failure. -/
theorem query_transport_failures (st : SessionState) (repository : Option String)
    (question : String) (hinit : st.is_initialized = true) :
    (∀ s body, s ≠ 200 →
      (queryT st (QueryNet.ok s body) repository question).result =
        DWResult.failure (ErrorKind.remoteError s)
          ("DeepWiki API Error " ++ toString s ++ ": " ++ body)
      ∧ ∃ pre, ("DeepWiki API Error " ++ toString s ++ ": " ++ body) = pre ++ body
          ∧ pre.length = 21 + (toString s).length)
  ∧ (queryT st QueryNet.timeout repository question).result =
      DWResult.failure ErrorKind.timeout "Request to DeepWiki timed out"
  ∧ (∀ e, (queryT st (QueryNet.connError e) repository question).result =
      DWResult.failure ErrorKind.networkError ("Error connecting to DeepWiki: " ++ e)) := by
  refine ⟨fun s body hs => ⟨?_, "DeepWiki API Error " ++ toString s ++ ": ", rfl, ?_⟩,
    ?_, fun e => ?_⟩
  · simp [queryT, hinit, hs]
  · have h19 : ("DeepWiki API Error " : String).length = 19 := by decide
    have h2 : (": " : String).length = 2 := by decide
    simp [String.length_append, h19, h2]
    omega
  · simp [queryT, hinit]
  · simp [queryT, hinit]

/-- Witness for C6 at a concrete 500 status. -/
theorem query_transport_failures_witness :
    (queryT readyState (QueryNet.ok 500 "boom") none "why").result =
      DWResult.failure (ErrorKind.remoteError 500) "DeepWiki API Error 500: boom"
    ∧ ∃ pre, ("DeepWiki API Error " ++ toString 500 ++ ": " ++ "boom") = pre ++ "boom"
        ∧ pre.length = 21 + (toString 500).length :=
  (query_transport_failures readyState none "why" rfl).1 500 "boom" (by decide)

/-- C7: `query` is total: for every session state, transport outcome
(including timeouts and connection faults), repository argument and
question, it returns either a success value or a tagged failure value,
never an unhandled fault; likewise the parser returns a string for every
body. -/
theorem query_total (st : SessionState) (net : QueryNet) (repository : Option String)
    (question : String) :
    ((∃ c, (queryT st net repository question).result = DWResult.success c)
      ∨ (∃ k d, (queryT st net repository question).result = DWResult.failure k d))
    ∧ ∀ body : String, ∃ t : String, parse_sse_response body = t := by
  refine ⟨?_, fun body => ⟨parse_sse_response body, rfl⟩⟩
  cases h : (queryT st net repository question).result with
  | success c => exact Or.inl ⟨c, rfl⟩
  | failure k d => exact Or.inr ⟨k, d, rfl⟩

/-- C8: the target table maps claude, cursor, windsurf and gemini to their
canonical filenames, and no two entries of the table share a filename, so
distinct requested target ids never collide. -/
theorem agent_filename_table :
    agentFileName "claude" = some "claude.md"
  ∧ agentFileName "cursor" = some "project_general.md"
  ∧ agentFileName "windsurf" = some "windsurf.md"
  ∧ agentFileName "gemini" = some "gemini.md"
  ∧ (AGENTS.map (fun a => a.fileName)).Nodup := by
  refine ⟨rfl, rfl, rfl, rfl, ?_⟩
  decide

/-- C10: `query` leaves the session state unchanged on every input and
every outcome: `session_id` and `is_initialized` read the same after the
call as before it. -/
theorem query_preserves_session (st : SessionState) (net : QueryNet)
    (repository : Option String) (question : String) :
    (queryT st net repository question).state.session_id = st.session_id
    ∧ (queryT st net repository question).state.is_initialized = st.is_initialized := by
  rw [queryT_state_eq]
  exact ⟨rfl, rfl⟩

/-- Helper: stripping a literal off a word that starts with it yields the rest. -/
theorem stripLit_append (p r : List Char) : stripLit p (p ++ r) = some r := by
  induction p with
  | nil => rfl
  | cons c cs ih => simp [stripLit, ih]

/-- Helper: a successful literal strip decomposes the word. -/
theorem eq_append_of_stripLit {p l r : List Char} (h : stripLit p l = some r) :
    l = p ++ r := by
  induction p generalizing l with
  | nil =>
      simp [stripLit] at h
      simp [h]
  | cons c cs ih =>
      cases l with
      | nil => simp [stripLit] at h
      | cons a as =>
          by_cases hca : c = a
          · subst hca
            simp [stripLit] at h
            have := ih h
            simp [this]
          · simp [stripLit, hca] at h

/-- Helper: a slash-free owner and repo never start with either literal
host alternative (both host literals contain three slashes, the candidate
word only one). -/
theorem stripLit_host_none {o t : List Char} (hoc : ∀ c ∈ o, c ≠ '/')
    (htc : ∀ c ∈ t, c ≠ '/') :
    stripLit httpsHostChars (o ++ '/' :: t) = none
    ∧ stripLit httpHostChars (o ++ '/' :: t) = none := by
  have ho : o.count '/' = 0 := List.count_eq_zero.mpr (fun hmem => (hoc _ hmem) rfl)
  have ht : t.count '/' = 0 := List.count_eq_zero.mpr (fun hmem => (htc _ hmem) rfl)
  have hcount : (o ++ '/' :: t).count '/' = 1 := by
    simp [List.count_append, List.count_cons, ho, ht]
  constructor
  · cases hs : stripLit httpsHostChars (o ++ '/' :: t) with
    | none => rfl
    | some r =>
        exfalso
        have heq : (o ++ '/' :: t).count '/' = httpsHostChars.count '/' + r.count '/' := by
          rw [eq_append_of_stripLit hs, List.count_append]
        have hh : httpsHostChars.count '/' = 3 := by decide
        rw [hcount, hh] at heq
        omega
  · cases hs : stripLit httpHostChars (o ++ '/' :: t) with
    | none => rfl
    | some r =>
        exfalso
        have heq : (o ++ '/' :: t).count '/' = httpHostChars.count '/' + r.count '/' := by
          rw [eq_append_of_stripLit hs, List.count_append]
        have hh : httpHostChars.count '/' = 3 := by decide
        rw [hcount, hh] at heq
        omega

/-- Helper: the capture group matches an entire `owner/repo`-shaped word. -/
theorem matchTwoSegs_full {o t : List Char} (ho : o ≠ []) (ht : t ≠ [])
    (hoc : ∀ c ∈ o, c ≠ '/') (htc : ∀ c ∈ t, c ≠ '/') :
    matchTwoSegs (o ++ '/' :: t) = some (o ++ '/' :: t) := by
  have hop : ∀ c ∈ o, notSlash c = true := fun c hc => by simp [notSlash, hoc c hc]
  have htp : ∀ c ∈ t, notSlash c = true := fun c hc => by simp [notSlash, htc c hc]
  have h1 : (o ++ '/' :: t).takeWhile notSlash = o := by
    rw [List.takeWhile_append_of_pos hop, List.takeWhile_cons_of_neg (by decide)]
    simp
  have h2 : (o ++ '/' :: t).dropWhile notSlash = '/' :: t := by
    rw [List.dropWhile_append_of_pos hop, List.dropWhile_cons_of_neg (by decide)]
  have h3 : t.takeWhile notSlash = t := by
    have := @List.takeWhile_append_of_pos _ notSlash t [] htp
    simpa using this
  have ho2 : o.isEmpty = false := by
    cases o with
    | nil => exact absurd rfl ho
    | cons _ _ => rfl
  have ht2 : t.isEmpty = false := by
    cases t with
    | nil => exact absurd rfl ht
    | cons _ _ => rfl
  simp [matchTwoSegs, h1, h2, h3, ho2, ht2]

/-- C2: a repository given as an `owner/repo` shorthand and the same
repository given as a full `https://github.com/owner/repo` URL normalize to
the identical repository identifier (the regex captures the two path
segments after the recognized host, and the host-less shorthand is returned
whole). -/
theorem normalize_spellings_agree (owner repo : String)
    (ho : owner.data ≠ []) (hr : repo.data ≠ [])
    (hoc : ∀ c ∈ owner.data, c ≠ '/') (hrc : ∀ c ∈ repo.data, c ≠ '/') :
    normalizeRepo (some (owner ++ "/" ++ repo)) = owner ++ "/" ++ repo
    ∧ normalizeRepo (some ("https://github.com/" ++ (owner ++ "/" ++ repo))) =
        owner ++ "/" ++ repo := by
  have hdata : (owner ++ "/" ++ repo).data = owner.data ++ '/' :: repo.data := by
    rw [String.data_append, String.data_append]
    simp
  have hm : matchTwoSegs (owner.data ++ '/' :: repo.data) =
      some (owner.data ++ '/' :: repo.data) := matchTwoSegs_full ho hr hoc hrc
  have hnone := stripLit_host_none hoc hrc
  constructor
  · simp only [normalizeRepo, repoRegexMatch, hdata, hnone.1, hnone.2, hm]
    rw [← hdata]
  · have hdata2 : ("https://github.com/" ++ (owner ++ "/" ++ repo)).data =
        httpsHostChars ++ (owner.data ++ '/' :: repo.data) := by
      rw [String.data_append, hdata]
      rfl
    simp only [normalizeRepo, repoRegexMatch, hdata2, stripLit_append, hm]
    rw [← hdata]

/-- Witness for C2 at the repository of the spec's own scenario. -/
theorem normalize_spellings_agree_witness :
    normalizeRepo (some ("octocat" ++ "/" ++ "Hello-World")) = "octocat" ++ "/" ++ "Hello-World"
    ∧ normalizeRepo (some ("https://github.com/" ++ ("octocat" ++ "/" ++ "Hello-World"))) =
        "octocat" ++ "/" ++ "Hello-World" :=
  normalize_spellings_agree "octocat" "Hello-World" (by decide) (by decide) (by decide)
    (by decide)

/-- C3: on a success status with a non-blank body, `query` returns the
parser's output as a success value exactly when that output is non-empty
and free of the known vendor error markers, and as a parse-error failure
carrying the diagnostic text otherwise; consequently a marker-bearing parse
outcome is never equal, as a returned value, to any successful outcome. -/
theorem query_parse_paths (st : SessionState) (repository : Option String)
    (question : String) (b1 b2 : String) (hinit : st.is_initialized = true)
    (h1 : (pyStrip b1).data.isEmpty = false) (h2 : (pyStrip b2).data.isEmpty = false) :
    ((!(parse_sse_response b1).data.isEmpty
        && !isVendorErrorMarker (parse_sse_response b1)) = true →
      (queryT st (QueryNet.ok 200 b1) repository question).result =
        DWResult.success (parse_sse_response b1))
    ∧ ((!(parse_sse_response b1).data.isEmpty
        && !isVendorErrorMarker (parse_sse_response b1)) = false →
      (queryT st (QueryNet.ok 200 b1) repository question).result =
        DWResult.failure ErrorKind.parseError (parse_sse_response b1))
    ∧ (∀ c d, (queryT st (QueryNet.ok 200 b1) repository question).result =
        DWResult.success c →
      (queryT st (QueryNet.ok 200 b2) repository question).result =
        DWResult.failure ErrorKind.parseError d → c ≠ d) := by
  have e1 := queryT_ok200_result st repository question b1 hinit h1
  have e2 := queryT_ok200_result st repository question b2 hinit h2
  refine ⟨fun hc => ?_, fun hc => ?_, fun c d hcs hdf => ?_⟩
  · rw [e1, if_pos hc]
  · rw [e1]
    simp [hc]
  · rw [e1] at hcs
    rw [e2] at hdf
    by_cases hb1 : (!(parse_sse_response b1).data.isEmpty
        && !isVendorErrorMarker (parse_sse_response b1)) = true
    · rw [if_pos hb1] at hcs
      have hc : c = parse_sse_response b1 := by
        cases hcs
        rfl
      by_cases hb2 : (!(parse_sse_response b2).data.isEmpty
          && !isVendorErrorMarker (parse_sse_response b2)) = true
      · rw [if_pos hb2] at hdf
        exact absurd hdf (by simp)
      · rw [if_neg hb2] at hdf
        have hd : d = parse_sse_response b2 := by
          cases hdf
          rfl
        intro hcd
        rw [hc, hd] at hcd
        rw [hcd] at hb1
        exact hb2 hb1
    · rw [if_neg hb1] at hcs
      exact absurd hcs (by simp)

/-- Witness for C3: a body with a message event parses to a success value
and a body without one parses to a marker diagnostic, and the two returned
values differ. -/
theorem query_parse_paths_witness :
    (queryT readyState (QueryNet.ok 200 "event: message\ndata: hello\n") none "why").result =
      DWResult.success "hello"
    ∧ (queryT readyState (QueryNet.ok 200 "nothing here") none "why").result =
      DWResult.failure ErrorKind.parseError "No message event found in response"
    ∧ ("hello" : String) ≠ "No message event found in response" := by
  have h := query_parse_paths readyState none "why" "event: message\ndata: hello\n"
    "nothing here" rfl (by decide) (by decide)
  have h2 := query_parse_paths readyState none "why" "nothing here"
    "nothing here" rfl (by decide) (by decide)
  have hp1 : parse_sse_response "event: message\ndata: hello\n" = "hello" := by decide
  have hp2 : parse_sse_response "nothing here" = "No message event found in response" := by
    decide
  have ha := h.1 (by rw [hp1]; decide)
  have hb := h2.2.1 (by rw [hp2]; decide)
  rw [hp1] at ha
  rw [hp2] at hb
  exact ⟨ha, hb, h.2.2 "hello" "No message event found in response" ha hb⟩

/-- Helper: whenever a handshake leaves the session marked initialized, the
token field holds a non-empty session id extracted from the response
header. -/
theorem initializeSession_ready_token (st : SessionState) (net : InitNet)
    (h : (initializeSession st net).1.is_initialized = true) :
    ∃ tok, (initializeSession st net).1.session_id = some tok ∧ tok.data ≠ [] := by
  cases net with
  | ok s b hdr =>
      by_cases hs : s = 200
      · subst hs
        cases hdr with
        | none => simp [initializeSession] at h
        | some tok =>
            by_cases he : tok.data.isEmpty
            · simp [initializeSession, he] at h
            · refine ⟨tok, ?_, fun hnil => he (by simp [hnil])⟩
              simp [initializeSession, he]
      · simp [initializeSession, hs] at h
  | timeout => simp [initializeSession] at h
  | reqError e => simp [initializeSession] at h

/-- C9 (amended): in every session state reachable through construction,
initialization, `query` and `close`, if the session is marked initialized
then a non-empty session token is present.  The converse direction of the
claimed equivalence fails: a failed re-initialization clears only the flag
and leaves a stale token present. -/
theorem reachable_ready_has_token (st : SessionState) (h : Reachable st) :
    st.is_initialized = true → ∃ tok, st.session_id = some tok ∧ tok.data ≠ [] := by
  induction h with
  | construct net => exact fun hr => initializeSession_ready_token _ _ hr
  | reinit st1 net hst ih => exact fun hr => initializeSession_ready_token _ _ hr
  | queryStep st1 net repo q hst ih =>
      rw [queryT_state_eq]
      exact ih
  | closeStep st1 hst ih =>
      intro hr
      unfold close at hr ⊢
      by_cases hb : st1.is_initialized
      · rw [if_pos hb] at hr
        simp at hr
      · rw [if_neg hb] at hr
        exact absurd hr hb

/-- Witness for C9 (amended) at a state produced by a successful handshake. -/
theorem reachable_ready_has_token_witness :
    ∃ tok, (initializeSession freshState (InitNet.ok 200 "" (some "abc"))).1.session_id =
      some tok ∧ tok.data ≠ [] :=
  reachable_ready_has_token _ (Reachable.construct (InitNet.ok 200 "" (some "abc")))
    (by decide)

/-- Counterexample for C9 as stated: the claimed equivalence between the
initialized flag and token presence fails on the reachable state produced
by a successful handshake followed by a timed-out re-initialization, which
leaves the stale token present while the flag is false. -/
theorem session_invariant_counterexample :
    ¬ (∀ st : SessionState, Reachable st →
        (st.is_initialized = true ↔ st.session_id.isSome = true)) := by
  intro hall
  have hreach : Reachable (initializeSession
      (initializeSession freshState (InitNet.ok 200 "" (some "abc"))).1 InitNet.timeout).1 :=
    Reachable.reinit _ InitNet.timeout (Reachable.construct (InitNet.ok 200 "" (some "abc")))
  have hinit := (hall _ hreach).mpr (by decide)
  exact absurd hinit (by decide)
